import Mathlib

/-!
Verification of the caching and provider-routing core of the translation-api
repository (`app/cache.py`, `app/translation.py`, `app/main.py`).

The Python source is shallowly embedded: pure helpers become Lean functions,
the Redis backing store becomes an explicit state value threaded through the
cache operations, machine integers become `Nat` with explicit `% 2^32` where
the MD5 digest needs 32-bit wraparound, and Python's exception flow becomes
`Except` values.  Upstream HTTP adapters are abstracted as oracle functions
passed to the router, since their observable behaviour is network input.
-/

set_option maxRecDepth 40000

deriving instance DecidableEq for Except

namespace TranslationApi

/-! ### MD5 digest

`app/cache.py` fingerprints a request with `hashlib.md5(content.encode()).hexdigest()`.
The digest is implemented here in full (RFC 1321) over `Nat` with explicit
`% 2^32` wraparound, operating on the UTF-8 bytes of the input string.
-/

def w32 (x : Nat) : Nat := x % 4294967296

def wadd (x y : Nat) : Nat := w32 (x + y)

def wnot (x : Nat) : Nat := Nat.xor x 4294967295

def rotl32 (x s : Nat) : Nat :=
  w32 (Nat.lor (w32 (Nat.shiftLeft x s)) (Nat.shiftRight x (32 - s)))

/-- The 64 MD5 sine-derived constants `K[i]` (RFC 1321). -/
def md5K : List Nat :=
  [0xd76aa478, 0xe8c7b756, 0x242070db, 0xc1bdceee,
   0xf57c0faf, 0x4787c62a, 0xa8304613, 0xfd469501,
   0x698098d8, 0x8b44f7af, 0xffff5bb1, 0x895cd7be,
   0x6b901122, 0xfd987193, 0xa679438e, 0x49b40821,
   0xf61e2562, 0xc040b340, 0x265e5a51, 0xe9b6c7aa,
   0xd62f105d, 0x02441453, 0xd8a1e681, 0xe7d3fbc8,
   0x21e1cde6, 0xc33707d6, 0xf4d50d87, 0x455a14ed,
   0xa9e3e905, 0xfcefa3f8, 0x676f02d9, 0x8d2a4c8a,
   0xfffa3942, 0x8771f681, 0x6d9d6122, 0xfde5380c,
   0xa4beea44, 0x4bdecfa9, 0xf6bb4b60, 0xbebfbc70,
   0x289b7ec6, 0xeaa127fa, 0xd4ef3085, 0x04881d05,
   0xd9d4d039, 0xe6db99e5, 0x1fa27cf8, 0xc4ac5665,
   0xf4292244, 0x432aff97, 0xab9423a7, 0xfc93a039,
   0x655b59c3, 0x8f0ccc92, 0xffeff47d, 0x85845dd1,
   0x6fa87e4f, 0xfe2ce6e0, 0xa3014314, 0x4e0811a1,
   0xf7537e82, 0xbd3af235, 0x2ad7d2bb, 0xeb86d391]

/-- The 64 per-round left-rotation amounts `s[i]` (RFC 1321). -/
def md5S : List Nat :=
  [7, 12, 17, 22, 7, 12, 17, 22, 7, 12, 17, 22, 7, 12, 17, 22,
   5, 9, 14, 20, 5, 9, 14, 20, 5, 9, 14, 20, 5, 9, 14, 20,
   4, 11, 16, 23, 4, 11, 16, 23, 4, 11, 16, 23, 4, 11, 16, 23,
   6, 10, 15, 21, 6, 10, 15, 21, 6, 10, 15, 21, 6, 10, 15, 21]

/-- Nonlinear mixing function and message word index for round `i`. -/
def md5FG (i b c d : Nat) : Nat × Nat :=
  if i < 16 then
    (Nat.lor (Nat.land b c) (Nat.land (wnot b) d), i)
  else if i < 32 then
    (Nat.lor (Nat.land d b) (Nat.land (wnot d) c), (5 * i + 1) % 16)
  else if i < 48 then
    (Nat.xor b (Nat.xor c d), (3 * i + 5) % 16)
  else
    (Nat.xor c (Nat.lor b (wnot d)), (7 * i) % 16)

/-- One MD5 round step on the running state `(a, b, c, d)`. -/
def md5Step (m : List Nat) (st : Nat × Nat × Nat × Nat) (i : Nat) :
    Nat × Nat × Nat × Nat :=
  match st with
  | (a, b, c, d) =>
    let fg := md5FG i b c d
    let f := wadd (wadd (wadd fg.1 a) (md5K.getD i 0)) (m.getD fg.2 0)
    (d, wadd b (rotl32 f (md5S.getD i 0)), b, c)

/-- Little-endian decomposition of `x` into `n` bytes. -/
def leBytes : Nat → Nat → List Nat
  | 0, _ => []
  | n + 1, x => (x % 256) :: leBytes n (x / 256)

/-- Read the `j`-th little-endian 32-bit word out of a 64-byte block. -/
def leWord (block : List Nat) (j : Nat) : Nat :=
  block.getD (4 * j) 0 + 256 * block.getD (4 * j + 1) 0 +
    65536 * block.getD (4 * j + 2) 0 + 16777216 * block.getD (4 * j + 3) 0

/-- Process one 64-byte block, updating the four chaining words. -/
def md5Block (block : List Nat) (st : Nat × Nat × Nat × Nat) :
    Nat × Nat × Nat × Nat :=
  match st with
  | (a0, b0, c0, d0) =>
    let m := (List.range 16).map (leWord block)
    match (List.range 64).foldl (md5Step m) (a0, b0, c0, d0) with
    | (a, b, c, d) => (wadd a0 a, wadd b0 b, wadd c0 c, wadd d0 d)

/-- Process `n` consecutive 64-byte blocks of `msg`. -/
def md5Blocks : Nat → List Nat → Nat × Nat × Nat × Nat → Nat × Nat × Nat × Nat
  | 0, _, st => st
  | n + 1, msg, st => md5Blocks n (msg.drop 64) (md5Block (msg.take 64) st)

/-- RFC 1321 padding: a `0x80` byte, zeros to 56 mod 64, then the
64-bit little-endian bit length. -/
def md5Pad (msg : List Nat) : List Nat :=
  msg ++ [0x80] ++ List.replicate ((119 - msg.length % 64) % 64) 0 ++
    leBytes 8 ((8 * msg.length) % 18446744073709551616)

def hexDigit (n : Nat) : Char :=
  if n < 10 then Char.ofNat (48 + n) else Char.ofNat (87 + n)

/-- Lowercase hex rendering of one byte, high nibble first. -/
def hexByte (b : Nat) : List Char := [hexDigit (b / 16 % 16), hexDigit (b % 16)]

/-- MD5 digest of a byte sequence, as the usual 32-char lowercase hex string. -/
def md5HexBytes (msg : List Nat) : String :=
  let padded := md5Pad msg
  match md5Blocks (padded.length / 64) padded
      (0x67452301, 0xefcdab89, 0x98badcfe, 0x10325476) with
  | (a, b, c, d) =>
    String.mk (((leBytes 4 a ++ leBytes 4 b ++ leBytes 4 c ++ leBytes 4 d).map
      hexByte).flatten)

/-- UTF-8 encoding of one scalar value, as byte values. -/
def utf8Bytes (c : Char) : List Nat :=
  let n := c.toNat
  if n < 128 then [n]
  else if n < 2048 then
    [192 + Nat.shiftRight n 6, 128 + Nat.land n 63]
  else if n < 65536 then
    [224 + Nat.shiftRight n 12, 128 + Nat.land (Nat.shiftRight n 6) 63,
     128 + Nat.land n 63]
  else
    [240 + Nat.shiftRight n 18, 128 + Nat.land (Nat.shiftRight n 12) 63,
     128 + Nat.land (Nat.shiftRight n 6) 63, 128 + Nat.land n 63]

/-- `hashlib.md5(s.encode()).hexdigest()`: MD5 over the UTF-8 bytes of `s`. -/
def md5Hex (s : String) : String :=
  md5HexBytes (s.data.flatMap utf8Bytes)

/-! ### Fingerprint Generator (`app/cache.py`, `generate_cache_key`) -/

/-- The delimiter-joined content string `f"{text}:{source_lang}:{target_lang}"`. -/
def cacheContent (text source_lang target_lang : String) : String :=
  text ++ ":" ++ source_lang ++ ":" ++ target_lang

/-- `generate_cache_key`: `f"trans:{hashlib.md5(content.encode()).hexdigest()}"`. -/
def generate_cache_key (text source_lang target_lang : String) : String :=
  "trans:" ++ md5Hex (cacheContent text source_lang target_lang)

/-! ### Redis backing-store model

The Redis client is modelled as an explicit state: a finite map from keys to
string values, each with an optional TTL in seconds.  Every command first
checks an `ok` flag; when the backing store is unreachable (`ok = false`) the
command raises, modelling the connection errors that the Python `try/except`
blocks in `app/cache.py` swallow.
-/

/-- One Redis key with its string value and optional expiry (seconds). -/
structure RedisEntry where
  key : String
  value : String
  ttl : Option Nat
deriving DecidableEq, Repr

/-- Model of the Redis backing store.  `memInfo` is the
`used_memory_human` field of `INFO memory`, when the server reports one. -/
structure RedisState where
  ok : Bool
  entries : List RedisEntry
  memInfo : Option String
deriving DecidableEq, Repr

/-- Exceptions raised by backing-store commands or by `int(...)` parsing. -/
inductive PyErr where
  | connection : PyErr
  | value : PyErr
deriving DecidableEq, Repr

def RedisState.lookup (st : RedisState) (k : String) : Option RedisEntry :=
  st.entries.find? (fun e => e.key == k)

/-- Write `k ↦ (v, ttl)`, replacing any previous binding of `k`. -/
def RedisState.setEntry (st : RedisState) (k v : String) (t : Option Nat) :
    RedisState :=
  { st with entries := ⟨k, v, t⟩ :: st.entries.filter (fun e => !(e.key == k)) }

/-- The string value currently stored at `k`, if any. -/
def entryValue (st : RedisState) (k : String) : Option String :=
  (st.lookup k).map RedisEntry.value

/-- The TTL currently attached to `k`, if any. -/
def entryTTL (st : RedisState) (k : String) : Option Nat :=
  (st.lookup k).bind RedisEntry.ttl

/-- Parse a non-empty run of decimal digits; anything else is no parse. -/
def parseDigitsAux : List Char → Nat → Option Nat
  | [], acc => some acc
  | c :: cs, acc =>
    if 48 ≤ c.toNat && c.toNat ≤ 57 then
      parseDigitsAux cs (acc * 10 + (c.toNat - 48))
    else none

/-- The decimal value of a stored Redis string, when it is a numeral. -/
def pyNat (s : String) : Option Nat :=
  match s.data with
  | [] => none
  | l => parseDigitsAux l 0

/-- The integer a Redis `INCR` on `k` would start from: the stored decimal
value, or 0 when the key is absent.  (Counter keys are only ever written by
`INCR` itself, so they always hold decimal numerals.) -/
def counterValue (st : RedisState) (k : String) : Nat :=
  ((entryValue st k).bind pyNat).getD 0

/-- `redis_client.get(k)`. -/
def rget (k : String) (st : RedisState) :
    Except PyErr (Option String × RedisState) :=
  if st.ok then .ok (entryValue st k, st) else .error .connection

/-- `redis_client.incr(k)`: atomic increment, returning the new value.
`INCR` does not touch the key's TTL. -/
def rincr (k : String) (st : RedisState) : Except PyErr (Nat × RedisState) :=
  if st.ok then
    let n := counterValue st k + 1
    .ok (n, st.setEntry k (toString n) (entryTTL st k))
  else .error .connection

/-- `redis_client.expire(k, secs)`: refresh the TTL of an existing key. -/
def rexpire (k : String) (secs : Nat) (st : RedisState) :
    Except PyErr RedisState :=
  if st.ok then
    .ok (match st.lookup k with
      | some e => st.setEntry k e.value (some secs)
      | none => st)
  else .error .connection

/-- `redis_client.setex(k, secs, v)`: set value and TTL together. -/
def rsetex (k : String) (secs : Nat) (v : String) (st : RedisState) :
    Except PyErr RedisState :=
  if st.ok then .ok (st.setEntry k v (some secs)) else .error .connection

/-- `redis_client.info("memory").get("used_memory_human", "N/A")`. -/
def rinfoMemory (st : RedisState) : Except PyErr (String × RedisState) :=
  if st.ok then .ok (st.memInfo.getD "N/A", st) else .error .connection

/-- `redis_client.dbsize()`. -/
def rdbsize (st : RedisState) : Except PyErr (Nat × RedisState) :=
  if st.ok then .ok (st.entries.length, st) else .error .connection

/-- Python truthiness of an `Optional[str]`: `None` and `""` are falsy. -/
def pyTruthy : Option String → Bool
  | none => false
  | some s => !(s == "")

/-! ### Cache Store (`app/cache.py`) -/

/-- `get_cached_translation`: look up the fingerprint; on a truthy value
record a hit and return it, otherwise record a miss and return `None`.
The surrounding `try/except` turns any backing-store failure into a plain
`None` (cache miss), so the function itself can never raise. -/
def get_cached_translation (text source_lang target_lang : String)
    (st : RedisState) : Option String × RedisState :=
  let cache_key := generate_cache_key text source_lang target_lang
  match rget cache_key st with
  | .error _ => (none, st)
  | .ok (cached, st1) =>
    if pyTruthy cached then
      match rincr "stats:cache_hits" st1 with
      | .error _ => (none, st)
      | .ok (_, st2) => (cached, st2)
    else
      match rincr "stats:cache_misses" st1 with
      | .error _ => (none, st)
      | .ok (_, st2) => (none, st2)

/-- The popularity tiering of `set_cached_translation` (`app/cache.py`
lines 61–68): TTL chosen from the updated request count. -/
def expire_seconds (count : Nat) : Nat :=
  if count ≥ 100 then 604800
  else if count ≥ 20 then 86400
  else if count ≥ 5 then 3600
  else 1800

/-- `set_cached_translation`: increment the popularity counter (refreshing
its own 7-day window), store the translation under a TTL selected by
`expire_seconds`, and return the updated count.  The surrounding
`try/except` turns any backing-store failure into a return value of `0`. -/
def set_cached_translation (text source_lang target_lang translated_text : String)
    (st : RedisState) : Nat × RedisState :=
  let cache_key := generate_cache_key text source_lang target_lang
  let count_key := "count:" ++ cache_key
  match rincr count_key st with
  | .error _ => (0, st)
  | .ok (count, st1) =>
    match rexpire count_key 604800 st1 with
    | .error _ => (0, st)
    | .ok st2 =>
      match rsetex cache_key (expire_seconds count) translated_text st2 with
      | .error _ => (0, st)
      | .ok st3 => (count, st3)

/-- The dictionary returned by `get_cache_stats`, with `hit_rate` kept as the
exact percentage value that Python formats with `f"{hit_rate:.2f}%"`. -/
structure CacheStats where
  cache_hits : Nat
  cache_misses : Nat
  hit_rate : Rat
  total_requests : Nat
  memory_used : String
  total_keys : Nat
deriving DecidableEq, Repr

/-- The fallback dictionary of `get_cache_stats`'s `except` branch. -/
def defaultCacheStats : CacheStats :=
  { cache_hits := 0, cache_misses := 0, hit_rate := 0, total_requests := 0,
    memory_used := "N/A", total_keys := 0 }

/-- `int(x or 0)` applied to an optional Redis string value; a stored value
that is not a decimal numeral raises `ValueError`. -/
def pyInt (o : Option String) : Except PyErr Nat :=
  match o with
  | none => .ok 0
  | some s =>
    match pyNat s with
    | some n => .ok n
    | none => .error .value

/-- `get_cache_stats`: read both counters, derive the hit rate (0 when there
were no requests), and attach backing-store introspection values; any
failure yields the all-zero fallback dictionary. -/
def get_cache_stats (st : RedisState) : CacheStats :=
  let attempt : Except PyErr CacheStats :=
    match rget "stats:cache_hits" st with
    | .error e => .error e
    | .ok (h, st1) =>
      match pyInt h with
      | .error e => .error e
      | .ok hits =>
        match rget "stats:cache_misses" st1 with
        | .error e => .error e
        | .ok (m, st2) =>
          match pyInt m with
          | .error e => .error e
          | .ok misses =>
            let total := hits + misses
            let rate : Rat :=
              if total > 0 then (hits : Rat) / (total : Rat) * 100 else 0
            match rinfoMemory st2 with
            | .error e => .error e
            | .ok (mem, st3) =>
              match rdbsize st3 with
              | .error e => .error e
              | .ok (keys, _) =>
                .ok { cache_hits := hits, cache_misses := misses,
                      hit_rate := rate, total_requests := total,
                      memory_used := mem, total_keys := keys }
  match attempt with
  | .ok r => r
  | .error _ => defaultCacheStats

/-! ### Provider Router and Adapters (`app/translation.py`)

The three adapters (`translate_with_deepl`, `translate_with_mymemory`,
`translate_with_Helsinki`) are HTTP calls; their observable behaviour is a
translated string or a raised `HTTPException`, so they are abstracted as
oracle functions with exactly the argument lists the router passes them:
DeepL receives `(text, target_lang, api_key)` and the keyless adapters
receive `(text, source_lang, target_lang)`. -/

/-- `fastapi.HTTPException` as raised by the adapters. -/
structure HTTPException where
  status_code : Nat
  detail : String
deriving DecidableEq, Repr

/-- An adapter outcome: a translation, or a raised `HTTPException`. -/
abbrev AdapterResult := Except HTTPException String

/-- An adapter abstracted over its three string arguments. -/
abbrev Adapter := String → String → String → AdapterResult

/-- `translate` (`app/translation.py` lines 144–160): routes to a provider
adapter.  `Except.ok none` is the implicit Python `return None` reached when
no branch matches (unknown provider, or `"deepl"` without a truthy user
key); the function has no `else` arm raising an error. -/
def translate (dpl mm hel : Adapter)
    (text source_lang target_lang provider : String)
    (user_api_key : Option String) : Except HTTPException (Option String) :=
  if pyTruthy user_api_key && (provider == "deepl") then
    (dpl text target_lang (user_api_key.getD "")).map some
  else if provider == "mymemory" then
    (mm text source_lang target_lang).map some
  else if provider == "Helsinki" then
    (hel text source_lang target_lang).map some
  else
    .ok none

/-- `test_api_key` (`app/translation.py` lines 125–142): probe DeepL with
the candidate key and report whether the upstream answered 200; any other
provider yields `False`, and the catch-all `except` maps every raised
exception to `False`.  `probe` abstracts the HTTP POST, returning the
response status code or raising. -/
def test_api_key (probe : String → Except HTTPException Nat)
    (provider api_key : String) : Bool :=
  let attempt : Except HTTPException Bool :=
    if provider == "deepl" then
      (probe api_key).map (fun status => status == 200)
    else
      .ok false
  match attempt with
  | .ok b => b
  | .error _ => false

/-! ### Credential Vault (`app/translation.py` lines 10–17)

`encrypt_api_key` / `decrypt_api_key` delegate to
`cryptography.fernet.Fernet`, an external library not under src/. -/

/-- `cryptography.fernet.InvalidToken`. -/
inductive FernetError where
  | invalidToken : FernetError
deriving DecidableEq, Repr

/-- Modelled from the spec: a Fernet token.  The cipher implementation
(`cryptography.fernet.Fernet`) is not part of this repository; per the spec
(§4.5) it is symmetric authenticated encryption, so a token is modelled as
the payload tagged with the vault key that produced it — decryption
recovers the payload exactly when the keys agree. -/
structure FernetToken where
  vaultKey : String
  payload : String
deriving DecidableEq, Repr

/-- `encrypt_api_key`: encrypt under the process-wide vault key
(`settings.ENCRYPTION_KEY`), here passed explicitly. -/
def encrypt_api_key (vaultKey plain_key : String) : FernetToken :=
  { vaultKey := vaultKey, payload := plain_key }

/-- `decrypt_api_key`: authenticated decryption — returns the plaintext
under the producing vault key and raises `InvalidToken` under any other. -/
def decrypt_api_key (vaultKey : String) (tok : FernetToken) :
    Except FernetError String :=
  if tok.vaultKey == vaultKey then .ok tok.payload
  else .error .invalidToken

/-! ### Translation endpoint (`app/main.py`, `translate_text`) -/

/-- The response model of `POST /api/v1/translate`. -/
structure TranslateResponse where
  original_text : String
  translated_text : String
  source_lang : String
  target_lang : String
  provider : String
  cached : Bool
  request_count : Option Nat
deriving DecidableEq, Repr

/-- `translate_text` (`app/main.py` lines 181–264): consult the cache; on a
miss, resolve the caller's stored provider credential (the database lookup
and decryption of an active key record are abstracted into
`storedUserKey`), invoke the router, cache the result, and answer.  A
router exception is re-raised as HTTP 500; the router returning `None`
(its fall-through) makes pydantic reject `TranslateResponse`, modelled as a
500 as well.  The background history write has no observable effect here. -/
def translate_text (dpl mm hel : Adapter)
    (text source_lang target_lang provider : String)
    (storedUserKey : Option String) (st : RedisState) :
    Except HTTPException (TranslateResponse × RedisState) :=
  let cacheStep := get_cached_translation text source_lang target_lang st
  match cacheStep with
  | (some cached_result, st1) =>
    .ok ({ original_text := text, translated_text := cached_result,
           source_lang := source_lang, target_lang := target_lang,
           provider := provider, cached := true, request_count := none }, st1)
  | (none, st1) =>
    let user_api_key :=
      if provider == "deepl" || provider == "google" || provider == "openai"
      then storedUserKey else none
    match translate dpl mm hel text source_lang target_lang provider
        user_api_key with
    | .error e => .error { status_code := 500, detail := e.detail }
    | .ok none => .error { status_code := 500, detail := "validation error" }
    | .ok (some translated_text) =>
      let putStep :=
        set_cached_translation text source_lang target_lang translated_text st1
      .ok ({ original_text := text, translated_text := translated_text,
             source_lang := source_lang, target_lang := target_lang,
             provider := provider, cached := false,
             request_count := some putStep.1 }, putStep.2)

/-! ### Concrete sample values used to instantiate the theorems -/

/-- An adapter that always succeeds, marking the text it was given. -/
def demoAdapter : Adapter := fun text _a _b => .ok ("T(" ++ text ++ ")")

/-- A reachable, empty backing store. -/
def demoRedis : RedisState := { ok := true, entries := [], memInfo := none }

/-- An unreachable backing store: every command raises. -/
def downRedis : RedisState := { ok := false, entries := [], memInfo := none }

/-- A reachable store holding 3 recorded hits and 1 recorded miss. -/
def stats31 : RedisState :=
  { ok := true,
    entries := [⟨"stats:cache_hits", "3", none⟩,
                ⟨"stats:cache_misses", "1", none⟩],
    memInfo := none }

/-- A reachable store holding an unexpired cache entry whose stored
translation is the empty string. -/
def emptyValueRedis : RedisState :=
  { ok := true,
    entries := [⟨generate_cache_key "hello" "en" "zh", "", some 1800⟩],
    memInfo := none }

/-- A probe that always reports HTTP 200. -/
def okProbe : String → Except HTTPException Nat := fun _ => .ok 200

/-! ### Lookup lemmas for the backing-store model -/

theorem find?_filter_ne (l : List RedisEntry) (k kd : String) (h : kd ≠ k) :
    (l.filter (fun e => !(e.key == k))).find? (fun e => e.key == kd) =
      l.find? (fun e => e.key == kd) := by
  induction l with
  | nil => rfl
  | cons e tl ih =>
    by_cases hk : e.key = k
    · have h1 : (e.key == k) = true := by simp [hk]
      have h2 : (e.key == kd) = false := by
        simp [hk]
        exact fun hc => h hc.symm
      simp [List.filter_cons, List.find?_cons, h1, h2, ih]
    · by_cases hkd : e.key = kd
      · have h1 : (e.key == k) = false := by simp [hk]
        have h2 : (e.key == kd) = true := by simp [hkd]
        simp [List.filter_cons, List.find?_cons, h1, h2]
      · have h1 : (e.key == k) = false := by simp [hk]
        have h2 : (e.key == kd) = false := by simp [hkd]
        simp [List.filter_cons, List.find?_cons, h1, h2, ih]

@[simp] theorem setEntry_ok (st : RedisState) (k v : String) (t : Option Nat) :
    (st.setEntry k v t).ok = st.ok := rfl

@[simp] theorem setEntry_memInfo (st : RedisState) (k v : String)
    (t : Option Nat) : (st.setEntry k v t).memInfo = st.memInfo := rfl

theorem lookup_setEntry_self (st : RedisState) (k v : String) (t : Option Nat) :
    (st.setEntry k v t).lookup k = some ⟨k, v, t⟩ := by
  simp [RedisState.lookup, RedisState.setEntry, List.find?_cons]

theorem lookup_setEntry_ne (st : RedisState) (k kd v : String) (t : Option Nat)
    (h : kd ≠ k) : (st.setEntry k v t).lookup kd = st.lookup kd := by
  have hk : (k == kd) = false := by
    simp
    exact fun hc => h hc.symm
  simp only [RedisState.lookup, RedisState.setEntry, List.find?_cons, hk,
    find?_filter_ne _ _ _ h]

/-! ### Sanity checks of the MD5 embedding against published test vectors -/

theorem md5Hex_empty : md5Hex "" = "d41d8cd98f00b204e9800998ecf8427e" := by
  decide

theorem md5Hex_abc : md5Hex "abc" = "900150983cd24fb0d6963f7d28e17f72" := by
  decide

/-! ### Claim theorems -/

/-- Claim C1: the spec requires every unrecognized provider name, the empty
string included, to fail with `UnsupportedProvider`.  The routing function
in `app/translation.py` has no such arm: for any adapters and any optional
user key, an unrecognized provider reaches no branch and the function
implicitly returns `None` — no error is raised and no value is produced,
exactly the logic gap §9 of the spec calls out in the reference system. -/
theorem translate_unknown_provider_returns_none :
    ∀ (dpl mm hel : Adapter) (key : Option String),
      translate dpl mm hel "hello" "en" "zh" "" key = .ok none ∧
      translate dpl mm hel "hello" "en" "zh" "google" key = .ok none := by
  intro dpl mm hel key
  constructor <;> simp [translate]

/-- Claim C2 (counterexample): the fingerprint is not injective on triples.
The delimiter `":"` may occur inside the text field, so the distinct triples
`("a:b", "c", "d")` and `("a", "b:c", "d")` concatenate to the same content
string and receive the same cache key. -/
theorem generate_cache_key_collision :
    generate_cache_key "a:b" "c" "d" = generate_cache_key "a" "b:c" "d" ∧
    ¬("a:b" = "a" ∧ "c" = "b:c" ∧ "d" = "d") :=
  ⟨rfl, by decide⟩

/-- Claim C2 (amended): field-wise equal triples always produce equal
fingerprints, but the converse fails — distinct triples can produce the
same fingerprint when the `":"` delimiter occurs in a field. -/
theorem generate_cache_key_deterministic :
    (∀ t1 s1 g1 t2 s2 g2, t1 = t2 → s1 = s2 → g1 = g2 →
      generate_cache_key t1 s1 g1 = generate_cache_key t2 s2 g2) ∧
    (∃ t1 s1 g1 t2 s2 g2, (t1, s1, g1) ≠ (t2, s2, g2) ∧
      generate_cache_key t1 s1 g1 = generate_cache_key t2 s2 g2) := by
  constructor
  · intro t1 s1 g1 t2 s2 g2 h1 h2 h3
    rw [h1, h2, h3]
  · exact ⟨"a:b", "c", "d", "a", "b:c", "d", by decide, rfl⟩

theorem generate_cache_key_deterministic_witness :
    generate_cache_key "hello" "en" "zh" = generate_cache_key "hello" "en" "zh" :=
  generate_cache_key_deterministic.1 "hello" "en" "zh" "hello" "en" "zh"
    rfl rfl rfl

/-- Claim C3: on a successful `put`, the TTL assigned to the cache entry is
the monotonic step function of the updated popularity count, with ties to
the highest threshold met (count ≥ 100 ↦ 7 days, 20 ≤ count < 100 ↦ 1 day,
5 ≤ count < 20 ↦ 1 hour, 1 ≤ count < 5 ↦ 30 minutes, boundaries at
4/5/19/20/99/100), and `put` returns the updated popularity count. -/
theorem set_cached_translation_popularity_tiers :
    (∀ c, 100 ≤ c → expire_seconds c = 604800) ∧
    (∀ c, 20 ≤ c → c < 100 → expire_seconds c = 86400) ∧
    (∀ c, 5 ≤ c → c < 20 → expire_seconds c = 3600) ∧
    (∀ c, 1 ≤ c → c < 5 → expire_seconds c = 1800) ∧
    (∀ c1 c2, c1 ≤ c2 → expire_seconds c1 ≤ expire_seconds c2) ∧
    (expire_seconds 4 = 1800 ∧ expire_seconds 5 = 3600 ∧
     expire_seconds 19 = 3600 ∧ expire_seconds 20 = 86400 ∧
     expire_seconds 99 = 86400 ∧ expire_seconds 100 = 604800) ∧
    (∀ text source_lang target_lang translated_text st, st.ok = true →
      (set_cached_translation text source_lang target_lang translated_text st).1 =
        counterValue st
          ("count:" ++ generate_cache_key text source_lang target_lang) + 1 ∧
      entryTTL
          (set_cached_translation text source_lang target_lang translated_text st).2
          (generate_cache_key text source_lang target_lang) =
        some (expire_seconds
          ((set_cached_translation text source_lang target_lang translated_text
            st).1)) ∧
      entryValue
          (set_cached_translation text source_lang target_lang translated_text st).2
          (generate_cache_key text source_lang target_lang) =
        some translated_text) := by
  refine ⟨?_, ?_, ?_, ?_, ?_, by decide, ?_⟩
  · intro c h
    unfold expire_seconds
    split_ifs <;> omega
  · intro c h1 h2
    unfold expire_seconds
    split_ifs <;> omega
  · intro c h1 h2
    unfold expire_seconds
    split_ifs <;> omega
  · intro c h1 h2
    unfold expire_seconds
    split_ifs <;> omega
  · intro c1 c2 h
    unfold expire_seconds
    split_ifs <;> omega
  · intro text source_lang target_lang translated_text st h
    refine ⟨?_, ?_, ?_⟩ <;>
      simp [set_cached_translation, rincr, rexpire, rsetex, h, entryTTL,
        entryValue, lookup_setEntry_self]

theorem set_cached_translation_popularity_tiers_witness :
    (set_cached_translation "hello" "en" "zh" "nihao" demoRedis).1 =
      counterValue demoRedis
        ("count:" ++ generate_cache_key "hello" "en" "zh") + 1 ∧
    entryTTL (set_cached_translation "hello" "en" "zh" "nihao" demoRedis).2
        (generate_cache_key "hello" "en" "zh") =
      some (expire_seconds
        ((set_cached_translation "hello" "en" "zh" "nihao" demoRedis).1)) ∧
    entryValue (set_cached_translation "hello" "en" "zh" "nihao" demoRedis).2
        (generate_cache_key "hello" "en" "zh") =
      some "nihao" :=
  set_cached_translation_popularity_tiers.2.2.2.2.2.2
    "hello" "en" "zh" "nihao" demoRedis rfl

/-- Claim C4 (counterexample): `"deepl"` is a recognized provider, yet when
no user credential is supplied the router dispatches to no adapter at all —
it falls through and returns `None` instead of invoking the DeepL adapter
(whose call here would have produced `T(hello)`). -/
theorem translate_deepl_without_key_returns_none :
    translate demoAdapter demoAdapter demoAdapter
      "hello" "en" "zh" "deepl" none = .ok none ∧
    (demoAdapter "hello" "zh" "").map some ≠
      translate demoAdapter demoAdapter demoAdapter
        "hello" "en" "zh" "deepl" none := by
  constructor
  · rfl
  · decide

/-- Claim C4 (amended): with a truthy user credential, `"deepl"` routes to
the DeepL adapter with that credential; `"mymemory"` and `"Helsinki"`
always route to their own adapters, credential or not; but `"deepl"`
without a truthy user credential is dispatched to no adapter — the router
returns `None`. -/
theorem translate_routing_selection :
    ∀ (dpl mm hel : Adapter) (text source_lang target_lang : String)
      (key : Option String),
      (pyTruthy key = true →
        translate dpl mm hel text source_lang target_lang "deepl" key =
          (dpl text target_lang (key.getD "")).map some) ∧
      (translate dpl mm hel text source_lang target_lang "mymemory" key =
        (mm text source_lang target_lang).map some) ∧
      (translate dpl mm hel text source_lang target_lang "Helsinki" key =
        (hel text source_lang target_lang).map some) ∧
      (pyTruthy key = false →
        translate dpl mm hel text source_lang target_lang "deepl" key =
          .ok none) := by
  intro dpl mm hel text source_lang target_lang key
  refine ⟨?_, ?_, ?_, ?_⟩
  · intro hk
    simp [translate, hk]
  · simp [translate]
  · simp [translate]
  · intro hk
    simp [translate, hk]

theorem translate_routing_selection_witness :
    translate demoAdapter demoAdapter demoAdapter "hello" "en" "zh" "deepl"
      (some "user-key") =
      (demoAdapter "hello" "zh" ((some "user-key").getD "")).map some ∧
    translate demoAdapter demoAdapter demoAdapter "hello" "en" "zh" "deepl"
      (some "") = .ok none :=
  ⟨(translate_routing_selection demoAdapter demoAdapter demoAdapter
      "hello" "en" "zh" (some "user-key")).1 rfl,
   (translate_routing_selection demoAdapter demoAdapter demoAdapter
      "hello" "en" "zh" (some "")).2.2.2 rfl⟩

/-- Claim C5: when the backing store is unreachable, `get` swallows the
failure and reports a plain cache miss — it returns `none`, leaves the
state as it was, and (being a total function into `Option String ×
RedisState`) raises nothing to the translation caller. -/
theorem get_cached_translation_failure_is_miss :
    ∀ text source_lang target_lang st, st.ok = false →
      get_cached_translation text source_lang target_lang st = (none, st) := by
  intro text source_lang target_lang st h
  simp [get_cached_translation, rget, h]

theorem get_cached_translation_failure_is_miss_witness :
    get_cached_translation "hello" "en" "zh" downRedis = (none, downRedis) :=
  get_cached_translation_failure_is_miss "hello" "en" "zh" downRedis rfl

/-- Claim C6: when the backing store is unreachable, `put` swallows the
failure and returns `0` without raising; and the `translate_text` endpoint
still answers with the successfully translated text even though caching
failed (shown on the cache-miss path through the `"mymemory"` provider,
whose adapter returned `T`). -/
theorem set_cached_translation_failure_nonfatal :
    ∀ text source_lang target_lang translated_text st, st.ok = false →
      set_cached_translation text source_lang target_lang translated_text st =
        (0, st) ∧
      (∀ (dpl mm hel : Adapter) (T : String),
        mm text source_lang target_lang = .ok T →
        translate_text dpl mm hel text source_lang target_lang "mymemory"
            none st =
          .ok ({ original_text := text, translated_text := T,
                 source_lang := source_lang, target_lang := target_lang,
                 provider := "mymemory", cached := false,
                 request_count := some 0 }, st)) := by
  intro text source_lang target_lang translated_text st h
  constructor
  · simp [set_cached_translation, rincr, h]
  · intro dpl mm hel T hT
    simp [translate_text, get_cached_translation, rget, h, translate,
      pyTruthy, hT, set_cached_translation, rincr, Except.map]

theorem set_cached_translation_failure_nonfatal_witness :
    set_cached_translation "hello" "en" "zh" "nihao" downRedis =
      (0, downRedis) ∧
    translate_text demoAdapter demoAdapter demoAdapter "hello" "en" "zh"
        "mymemory" none downRedis =
      .ok ({ original_text := "hello", translated_text := "T(hello)",
             source_lang := "en", target_lang := "zh",
             provider := "mymemory", cached := false,
             request_count := some 0 }, downRedis) :=
  ⟨(set_cached_translation_failure_nonfatal "hello" "en" "zh" "nihao"
      downRedis rfl).1,
   (set_cached_translation_failure_nonfatal "hello" "en" "zh" "nihao"
      downRedis rfl).2 demoAdapter demoAdapter demoAdapter "T(hello)" rfl⟩

/-- Claim C7: under one vault key the credential round-trips exactly
(`decrypt(encrypt(x)) = x` for every string, the empty string included),
and a token produced under one vault key fails to decrypt under any other
vault key with `InvalidToken` rather than yielding any plaintext. -/
theorem credential_vault_roundtrip :
    ∀ vaultKey otherKey x,
      decrypt_api_key vaultKey (encrypt_api_key vaultKey x) = .ok x ∧
      (vaultKey ≠ otherKey →
        decrypt_api_key otherKey (encrypt_api_key vaultKey x) =
          .error .invalidToken) := by
  intro vaultKey otherKey x
  constructor
  · simp [encrypt_api_key, decrypt_api_key]
  · intro h
    simp [encrypt_api_key, decrypt_api_key, h]

theorem credential_vault_roundtrip_witness :
    decrypt_api_key "vault-key-1" (encrypt_api_key "vault-key-1" "") =
      .ok "" ∧
    decrypt_api_key "vault-key-2" (encrypt_api_key "vault-key-1" "secret") =
      .error .invalidToken :=
  ⟨(credential_vault_roundtrip "vault-key-1" "vault-key-2" "").1,
   (credential_vault_roundtrip "vault-key-1" "vault-key-2" "secret").2
     (by decide)⟩

/-- Claim C8: the stats snapshot reports `total_requests = hits + misses`
and `hit_rate = hits / (hits + misses) * 100`, with rate 0 when both
counters are zero (the `total > 0` guard); in particular after 3 recorded
hits and 1 recorded miss the rate is 75% and `total_requests` is 4. -/
theorem get_cache_stats_hit_rate :
    (∀ st hits misses, st.ok = true →
      pyInt (entryValue st "stats:cache_hits") = .ok hits →
      pyInt (entryValue st "stats:cache_misses") = .ok misses →
      (get_cache_stats st).cache_hits = hits ∧
      (get_cache_stats st).cache_misses = misses ∧
      (get_cache_stats st).total_requests = hits + misses ∧
      (get_cache_stats st).hit_rate =
        (if hits + misses > 0 then
          (hits : Rat) / ((hits + misses : Nat) : Rat) * 100 else 0)) ∧
    (get_cache_stats stats31).hit_rate = 75 ∧
    (get_cache_stats stats31).total_requests = 4 := by
  have hgen : ∀ st hits misses, st.ok = true →
      pyInt (entryValue st "stats:cache_hits") = .ok hits →
      pyInt (entryValue st "stats:cache_misses") = .ok misses →
      (get_cache_stats st).cache_hits = hits ∧
      (get_cache_stats st).cache_misses = misses ∧
      (get_cache_stats st).total_requests = hits + misses ∧
      (get_cache_stats st).hit_rate =
        (if hits + misses > 0 then
          (hits : Rat) / ((hits + misses : Nat) : Rat) * 100 else 0) := by
    intro st hits misses hok hh hm2
    refine ⟨?_, ?_, ?_, ?_⟩ <;>
      simp [get_cache_stats, rget, rinfoMemory, rdbsize, hok, hh, hm2]
  refine ⟨hgen, ?_, ?_⟩
  · have h := (hgen stats31 3 1 rfl rfl rfl).2.2.2
    rw [h]
    norm_num
  · exact (hgen stats31 3 1 rfl rfl rfl).2.2.1

theorem get_cache_stats_hit_rate_witness :
    (get_cache_stats stats31).cache_hits = 3 ∧
    (get_cache_stats stats31).cache_misses = 1 ∧
    (get_cache_stats stats31).total_requests = 3 + 1 ∧
    (get_cache_stats stats31).hit_rate =
      (if 3 + 1 > 0 then ((3 : Nat) : Rat) / ((3 + 1 : Nat) : Rat) * 100
       else 0) :=
  get_cache_stats_hit_rate.1 stats31 3 1 rfl rfl rfl

/-- Claim C9: `test_api_key` always produces a boolean and can never raise
(it is a total function into `Bool`): a provider other than `"deepl"`
yields `false`, any exception raised by the probe is interpreted as
`false`, and for `"deepl"` a completed probe yields `true` exactly when
the upstream answered 200. -/
theorem test_api_key_never_raises :
    ∀ (probe : String → Except HTTPException Nat) (provider api_key : String),
      (provider ≠ "deepl" → test_api_key probe provider api_key = false) ∧
      (∀ e, probe api_key = .error e →
        test_api_key probe provider api_key = false) ∧
      (∀ status, probe api_key = .ok status →
        test_api_key probe "deepl" api_key = (status == 200)) := by
  intro probe provider api_key
  refine ⟨?_, ?_, ?_⟩
  · intro h
    have hp : (provider == "deepl") = false := by
      simp [h]
    simp [test_api_key, hp]
  · intro e he
    by_cases hp : provider = "deepl"
    · simp [test_api_key, hp, he, Except.map]
    · have hp2 : (provider == "deepl") = false := by
        simp [hp]
      simp [test_api_key, hp2]
  · intro status hs
    simp [test_api_key, hs, Except.map]

theorem test_api_key_never_raises_witness :
    test_api_key okProbe "google" "any-key" = false ∧
    test_api_key okProbe "deepl" "any-key" = (200 == 200) :=
  ⟨(test_api_key_never_raises okProbe "google" "any-key").1 (by decide),
   (test_api_key_never_raises okProbe "deepl" "any-key").2.2 200 rfl⟩

/-- Claim C10: when the stored translation for a fingerprint is the empty
string, `get` treats the lookup as a miss even though an unexpired cache
entry is present: the Python truthiness test `if cached:` rejects `""`, so
`get` returns `none` and the miss counter is incremented (its entry now
holds the next numeral). -/
theorem get_cached_translation_empty_string_is_miss :
    ∀ text source_lang target_lang t st, st.ok = true →
      st.lookup (generate_cache_key text source_lang target_lang) =
        some ⟨generate_cache_key text source_lang target_lang, "", some t⟩ →
      (get_cached_translation text source_lang target_lang st).1 = none ∧
      entryValue (get_cached_translation text source_lang target_lang st).2
          "stats:cache_misses" =
        some (toString
          (counterValue st "stats:cache_misses" + 1)) := by
  intro text source_lang target_lang t st hok hlook
  constructor
  · simp [get_cached_translation, rget, hok, entryValue, hlook, pyTruthy,
      rincr]
  · simp [get_cached_translation, rget, hok, entryValue, hlook, pyTruthy,
      rincr, lookup_setEntry_self]

theorem get_cached_translation_empty_string_is_miss_witness :
    (get_cached_translation "hello" "en" "zh" emptyValueRedis).1 = none ∧
    entryValue (get_cached_translation "hello" "en" "zh" emptyValueRedis).2
        "stats:cache_misses" =
      some (toString (counterValue emptyValueRedis "stats:cache_misses" + 1)) :=
  get_cached_translation_empty_string_is_miss "hello" "en" "zh" 1800
    emptyValueRedis rfl (by decide)

end TranslationApi
